import Mathlib

/-!
Shallow embedding of the Ark wallet backend (ark-web-app), covering the
balance-recalculation algorithm (`AppState::recalculate_balance`), the
off-chain round coordinator, exit manager, VTXO manager, transaction
builder, script manager and off-chain service facade, together with
theorems settling the specification claims about them.
-/

namespace ArkWebApp

/-- Ledger entry (`TransactionResponse` in `models/wallet.rs`):
txid, signed satoshi amount, timestamp, type name, settlement flag. -/
structure TransactionResponse where
  txid : String
  amount : Int
  timestamp : Int
  type_name : String
  is_settled : Option Bool
  deriving Repr, DecidableEq

/-- Wallet balance (`WalletBalance` in `models/wallet.rs`); fields are
u64 in the source, modelled as Int so that non-negativity is a theorem
rather than a representation artifact. -/
structure WalletBalance where
  confirmed : Int
  trusted_pending : Int
  untrusted_pending : Int
  immature : Int
  total : Int
  deriving Repr, DecidableEq

/-- One step of the first pass of `recalculate_balance`
(services/mod.rs lines 155-167): settled positive amounts add to
`confirmed`; settled negative amounts subtract their absolute value
only when that does not drive `confirmed` negative. -/
def firstPassStep (confirmed : Int) (tx : TransactionResponse) : Int :=
  if tx.is_settled = some true then
    if tx.amount > 0 then
      confirmed + tx.amount
    else
      let amount : Int := tx.amount.natAbs
      if confirmed >= amount then confirmed - amount else confirmed
  else
    confirmed

/-- First pass of `recalculate_balance`: fold `firstPassStep` over the
ledger starting from zero. -/
def firstPass (txs : List TransactionResponse) : Int :=
  txs.foldl firstPassStep 0

/-- State of the second pass of `recalculate_balance`: the running
available-confirmed total and the two pending accumulators. -/
structure SecondPassState where
  available_confirmed : Int
  trusted_pending : Int
  untrusted_pending : Int
  deriving Repr, DecidableEq

/-- One step of the second pass of `recalculate_balance`
(services/mod.rs lines 172-194): unsettled positive amounts add to
`untrusted_pending`; unsettled negative amounts move to
`trusted_pending` only when the running available-confirmed total
covers them, and are otherwise dropped. -/
def secondPassStep (s : SecondPassState) (tx : TransactionResponse) : SecondPassState :=
  if tx.is_settled = some false then
    if tx.amount > 0 then
      { s with untrusted_pending := s.untrusted_pending + tx.amount }
    else
      let amount : Int := tx.amount.natAbs
      if s.available_confirmed >= amount then
        { s with
          available_confirmed := s.available_confirmed - amount
          trusted_pending := s.trusted_pending + amount }
      else
        s
  else
    s

/-- Second pass of `recalculate_balance`, starting from the confirmed
total computed by the first pass. -/
def secondPass (confirmed : Int) (txs : List TransactionResponse) : SecondPassState :=
  txs.foldl secondPassStep
    { available_confirmed := confirmed, trusted_pending := 0, untrusted_pending := 0 }

/-- `AppState::recalculate_balance` (services/mod.rs lines 141-199):
zero the balance, run the two passes over the ledger, and set
`total = confirmed + trusted_pending + untrusted_pending + immature`. -/
def recalculate_balance (txs : List TransactionResponse) : WalletBalance :=
  let confirmed := firstPass txs
  let s := secondPass confirmed txs
  { confirmed := confirmed
    trusted_pending := s.trusted_pending
    untrusted_pending := s.untrusted_pending
    immature := 0
    total := confirmed + s.trusted_pending + s.untrusted_pending + 0 }

theorem firstPassStep_nonneg (c : Int) (tx : TransactionResponse) (h : 0 ≤ c) :
    0 ≤ firstPassStep c tx := by
  unfold firstPassStep
  split
  · split
    · omega
    · simp only
      split <;> omega
  · exact h

theorem firstPass_nonneg (txs : List TransactionResponse) : 0 ≤ firstPass txs := by
  unfold firstPass
  have h : ∀ (l : List TransactionResponse) (c : Int), 0 ≤ c → 0 ≤ l.foldl firstPassStep c := by
    intro l
    induction l with
    | nil => intro c hc; simpa using hc
    | cons t ts ih =>
      intro c hc
      simpa using ih (firstPassStep c t) (firstPassStep_nonneg c t hc)
  exact h txs 0 le_rfl

theorem secondPassStep_nonneg (s : SecondPassState) (tx : TransactionResponse)
    (h1 : 0 ≤ s.available_confirmed) (h2 : 0 ≤ s.trusted_pending)
    (h3 : 0 ≤ s.untrusted_pending) :
    0 ≤ (secondPassStep s tx).available_confirmed ∧
    0 ≤ (secondPassStep s tx).trusted_pending ∧
    0 ≤ (secondPassStep s tx).untrusted_pending := by
  simp only [secondPassStep]
  split_ifs with hset hpos hav <;> refine ⟨?_, ?_, ?_⟩ <;> dsimp only <;> omega

theorem secondPass_nonneg (confirmed : Int) (txs : List TransactionResponse)
    (h : 0 ≤ confirmed) :
    0 ≤ (secondPass confirmed txs).available_confirmed ∧
    0 ≤ (secondPass confirmed txs).trusted_pending ∧
    0 ≤ (secondPass confirmed txs).untrusted_pending := by
  unfold secondPass
  have key : ∀ (l : List TransactionResponse) (s : SecondPassState),
      0 ≤ s.available_confirmed → 0 ≤ s.trusted_pending → 0 ≤ s.untrusted_pending →
      0 ≤ (l.foldl secondPassStep s).available_confirmed ∧
      0 ≤ (l.foldl secondPassStep s).trusted_pending ∧
      0 ≤ (l.foldl secondPassStep s).untrusted_pending := by
    intro l
    induction l with
    | nil => intro s h1 h2 h3; exact ⟨h1, h2, h3⟩
    | cons t ts ih =>
      intro s h1 h2 h3
      obtain ⟨g1, g2, g3⟩ := secondPassStep_nonneg s t h1 h2 h3
      simpa using ih (secondPassStep s t) g1 g2 g3
  exact key txs _ h le_rfl le_rfl

/-- Concrete ledger for the C1 counterexample: one settled deposit of 5
sats followed by one settled withdrawal of 10 sats. -/
def c1Ledger : List TransactionResponse :=
  [{ txid := "tx1", amount := 5, timestamp := 0, type_name := "Boarding", is_settled := some true },
   { txid := "tx2", amount := -10, timestamp := 1, type_name := "Redeem", is_settled := some true }]

/-- Claim C1 (counterexample): the claim says that when a settled negative
entry's absolute amount exceeds the running confirmed total, confirmed
becomes zero; on the ledger `[+5 settled, -10 settled]` the code leaves
confirmed at 5, not 0 — the subtraction is skipped, not floored. -/
theorem c1_first_pass_counterexample :
    (recalculate_balance c1Ledger).confirmed = 5 ∧
    ¬ (recalculate_balance c1Ledger).confirmed = 0 := by
  decide

/-- Claim C1 (amended): in the first pass of `recalculate_balance`, a
settled entry with positive amount adds its amount to the running
confirmed total; a settled entry with negative amount subtracts its
absolute value when the running total covers it, and otherwise leaves
the running total unchanged (the subtraction is skipped, never performed
partially). -/
theorem c1_first_pass_step (txs : List TransactionResponse) (tx : TransactionResponse)
    (hs : tx.is_settled = some true) :
    firstPass (txs ++ [tx]) = firstPassStep (firstPass txs) tx ∧
    (recalculate_balance (txs ++ [tx])).confirmed = firstPassStep (firstPass txs) tx ∧
    (0 < tx.amount → firstPassStep (firstPass txs) tx = firstPass txs + tx.amount) ∧
    (tx.amount < 0 → (tx.amount.natAbs : Int) ≤ firstPass txs →
      firstPassStep (firstPass txs) tx = firstPass txs - tx.amount.natAbs) ∧
    (tx.amount < 0 → firstPass txs < (tx.amount.natAbs : Int) →
      firstPassStep (firstPass txs) tx = firstPass txs) := by
  have happ : firstPass (txs ++ [tx]) = firstPassStep (firstPass txs) tx := by
    simp [firstPass, List.foldl_append]
  refine ⟨happ, by simpa [recalculate_balance] using happ, ?_, ?_, ?_⟩
  · intro hpos
    simp [firstPassStep, hs, hpos]
  · intro hneg hle
    simp only [firstPassStep, hs]
    split_ifs <;> omega
  · intro hneg hlt
    simp only [firstPassStep, hs]
    split_ifs <;> omega

/-- Witness for C1's amended theorem at a concrete ledger. -/
theorem c1_first_pass_step_witness :
    firstPass (c1Ledger ++
      [{ txid := "tx3", amount := -2, timestamp := 2, type_name := "Redeem",
         is_settled := some true }]) =
    firstPassStep (firstPass c1Ledger)
      { txid := "tx3", amount := -2, timestamp := 2, type_name := "Redeem",
        is_settled := some true } :=
  (c1_first_pass_step c1Ledger
    { txid := "tx3", amount := -2, timestamp := 2, type_name := "Redeem",
      is_settled := some true } (by decide)).1

/-- Claim C2: for every ledger, after `recalculate_balance` the
`confirmed`, `trusted_pending` and `untrusted_pending` fields are all
non-negative (every subtraction in the algorithm is guarded, so no
underflow occurs) and `total` equals
`confirmed + trusted_pending + untrusted_pending + immature`. -/
theorem recalculate_balance_nonneg_and_total (txs : List TransactionResponse) :
    0 ≤ (recalculate_balance txs).confirmed ∧
    0 ≤ (recalculate_balance txs).trusted_pending ∧
    0 ≤ (recalculate_balance txs).untrusted_pending ∧
    (recalculate_balance txs).total =
      (recalculate_balance txs).confirmed + (recalculate_balance txs).trusted_pending +
      (recalculate_balance txs).untrusted_pending + (recalculate_balance txs).immature := by
  have h1 := firstPass_nonneg txs
  have h2 := secondPass_nonneg (firstPass txs) txs h1
  refine ⟨by simpa [recalculate_balance] using h1, ?_, ?_, ?_⟩
  · simpa [recalculate_balance] using h2.2.1
  · simpa [recalculate_balance] using h2.2.2
  · simp [recalculate_balance]

/-- Coordinator-reported outpoint (`VtxoOutPoint` from ark-core as used
by this repository): outpoint id, satoshi amount, pending flag and
absolute expiry timestamp in seconds (i64 in the source). -/
structure VtxoOutPoint where
  outpoint_id : String
  amount : Nat
  is_pending : Bool
  expire_at : Int
  deriving Repr, DecidableEq

/-- One element of the coordinator's `spendable_vtxos()` answer: the
outpoint list together with the VTXO's taproot address. -/
structure VtxoGroup where
  outpoints : List VtxoOutPoint
  address : String
  deriving Repr, DecidableEq

/-- Rust `i64::saturating_sub`: subtraction clamped to the i64 range. -/
def i64SatSub (a b : Int) : Int :=
  max (-(2 ^ 63)) (min (2 ^ 63 - 1) (a - b))

/-- Whether `pat` matches at the head of `hay` (helper for the
`str::contains` string matching used on upstream error messages). -/
def charListLead : List Char → List Char → Bool
  | [], _ => true
  | _ :: _, [] => false
  | p :: ps, h :: hs => p == h && charListLead ps hs

/-- Whether `pat` occurs contiguously anywhere inside `hay`. -/
def charListSeq (pat : List Char) : List Char → Bool
  | [] => pat.isEmpty
  | h :: hs => charListLead pat (h :: hs) || charListSeq pat hs

/-- Rust `str::contains(pat)` on the error-message strings. -/
def strContains (hay pat : String) : Bool :=
  charListSeq pat.toList hay.toList

/-- `RoundCoordinator::check_for_inputs` (round_coordinator.rs lines
59-77): scans spendable VTXOs for an outpoint whose time to expiry is at
most 7200 seconds and early-returns true; on a fetch error the scan is
skipped; in every remaining case it falls through to `Ok(true)` ("let
the client.board() method do its own checks"). -/
def check_for_inputs (vtxosResult : Except String (List VtxoGroup)) (now : Int) :
    Except String Bool :=
  match vtxosResult with
  | Except.ok vtxos =>
    if vtxos.any (fun g => g.outpoints.any (fun o => i64SatSub o.expire_at now ≤ 7200)) then
      Except.ok true
    else
      Except.ok true
  | Except.error _ => Except.ok true

/-- `RoundCoordinator::participate` (round_coordinator.rs lines 20-56),
as a function of the client's availability, the coordinator's VTXO
answer, the current time and the outcome of the `client.board` RPC call.
The second component records whether the board primitive was invoked. -/
def participate (clientAvailable : Bool) (vtxosResult : Except String (List VtxoGroup))
    (now : Int) (boardResult : Except String Unit) :
    Except String (Option String) × Bool :=
  if clientAvailable then
    match check_for_inputs vtxosResult now with
    | Except.error e => (Except.error e, false)
    | Except.ok hasInputs =>
      if !hasInputs then
        (Except.ok none, false)
      else
        match boardResult with
        | Except.ok _ => (Except.ok (some "round_completed"), true)
        | Except.error e =>
          if strContains e "No boarding outputs" then
            (Except.ok none, true)
          else
            (Except.error ("Round participation failed: " ++ e), true)
  else
    (Except.error "Ark client not available", false)

/-- Concrete VTXO group far from expiry for the C3 counterexample. -/
def c3Group : VtxoGroup :=
  { outpoints :=
      [{ outpoint_id := "op1", amount := 1000, is_pending := false, expire_at := 1000000 }],
    address := "addr1" }

/-- Claim C3 (counterexample): with no outpoint within 7200 seconds of
expiry and nothing to board (the board RPC reports "No boarding
outputs"), `participate` still invokes the board primitive — the claim
that the round-join primitive is never invoked is false. -/
theorem c3_participate_counterexample :
    (∀ o ∈ c3Group.outpoints, 7200 < i64SatSub o.expire_at 0) ∧
    (participate true (Except.ok [c3Group]) 0 (Except.error "No boarding outputs")).2 = true := by
  decide

/-- Claim C3 (amended): `check_for_inputs` returns true for every input
(even with no VTXO near expiry and no boarding outputs), so whenever the
client is available `participate` invokes the board primitive; it
returns `Ok(None)` when that call fails with an error whose message
contains "No boarding outputs". -/
theorem c3_participate_amended (vtxosResult : Except String (List VtxoGroup))
    (now : Int) (boardResult : Except String Unit) :
    check_for_inputs vtxosResult now = Except.ok true ∧
    (participate true vtxosResult now boardResult).2 = true ∧
    (∀ e, boardResult = Except.error e → strContains e "No boarding outputs" = true →
      participate true vtxosResult now boardResult = (Except.ok none, true)) := by
  have hci : check_for_inputs vtxosResult now = Except.ok true := by
    cases vtxosResult with
    | ok vtxos => simp [check_for_inputs]
    | error e => simp [check_for_inputs]
  refine ⟨hci, ?_, ?_⟩
  · cases boardResult with
    | ok u => simp [participate, hci]
    | error e =>
      by_cases hc : strContains e "No boarding outputs" = true
      · simp [participate, hci, hc]
      · simp [participate, hci, hc]
  · intro e he hc
    subst he
    simp [participate, hci, hc]

/-- Witness for C3's amended theorem at a concrete input. -/
theorem c3_participate_amended_witness :
    participate true (Except.ok [c3Group]) 0 (Except.error "No boarding outputs") =
      (Except.ok none, true) :=
  (c3_participate_amended (Except.ok [c3Group]) 0
      (Except.error "No boarding outputs")).2.2 "No boarding outputs" rfl (by decide)

/-- Claim C4: `participate` has no timeout branch at all — every
possible outcome is the client-unavailable error, round success,
`Ok(None)`, or the generic "Round participation failed" wrap of the
board error; no distinct Timeout error can be produced (the source never
applies the imported `tokio::time::timeout` to the board call). -/
theorem participate_no_timeout_branch (ca : Bool) (v : Except String (List VtxoGroup))
    (now : Int) (b : Except String Unit) :
    (participate ca v now b).1 = Except.error "Ark client not available" ∨
    (participate ca v now b).1 = Except.ok (some "round_completed") ∨
    (participate ca v now b).1 = Except.ok none ∨
    (∃ e, b = Except.error e ∧
      (participate ca v now b).1 = Except.error ("Round participation failed: " ++ e)) := by
  have hci : check_for_inputs v now = Except.ok true := by
    cases v with
    | ok vtxos => simp [check_for_inputs]
    | error e => simp [check_for_inputs]
  cases ca with
  | false => simp [participate]
  | true =>
    cases b with
    | ok u => simp [participate, hci]
    | error e =>
      by_cases h : strContains e "No boarding outputs" = true
      · simp [participate, hci, h]
      · refine Or.inr (Or.inr (Or.inr ⟨e, rfl, ?_⟩))
        simp [participate, hci, h]

/-- VTXO status classification (`VtxoStatus` in vtxo_manager.rs). -/
inductive VtxoStatus where
  | pending
  | confirmed
  | spent
  | expired
  deriving Repr, DecidableEq

/-- VTXO grouping tracked by the VTXO manager (`VtxoState` in
vtxo_manager.rs); the `vtxo` field is represented by its address. -/
structure VtxoState where
  address : String
  outpoints : List VtxoOutPoint
  total_amount : Nat
  status : VtxoStatus
  earliest_expiry : Nat
  deriving Repr, DecidableEq

/-- Rust `Iterator::min` over i64 values, as the fold it is. -/
def listMinInt (l : List Int) : Option Int :=
  l.foldl (fun acc x =>
    match acc with
    | none => some x
    | some m => some (min m x)) none

/-- The per-group body of `VtxoManager::get_spendable_vtxos`
(vtxo_manager.rs lines 53-77): total amount is the sum of outpoint
amounts, earliest expiry the minimum `expire_at` (converted to u64), and
the status is Expired when the earliest expiry has passed, else Pending
when some outpoint is pending, else Confirmed. -/
def computeVtxoState (now : Nat) (g : VtxoGroup) : VtxoState :=
  let total := (g.outpoints.map (fun o => o.amount)).sum
  let earliest : Nat := ((listMinInt (g.outpoints.map (fun o => o.expire_at))).getD 0).toNat
  let status :=
    if earliest ≤ now then VtxoStatus.expired
    else if g.outpoints.any (fun o => o.is_pending) then VtxoStatus.pending
    else VtxoStatus.confirmed
  { address := g.address
    outpoints := g.outpoints
    total_amount := total
    status := status
    earliest_expiry := earliest }

/-- `VtxoManager::get_spendable_vtxos` (vtxo_manager.rs lines 41-100):
fails when no client is available, wraps a fetch error, and otherwise
maps every group with a non-empty outpoint list through
`computeVtxoState`, skipping empty groups. -/
def get_spendable_vtxos (clientAvailable : Bool) (fetch : Except String (List VtxoGroup))
    (now : Nat) : Except String (List VtxoState) :=
  if clientAvailable then
    match fetch with
    | Except.ok vtxos =>
      Except.ok (vtxos.filterMap (fun g =>
        if g.outpoints.isEmpty then none else some (computeVtxoState now g)))
    | Except.error e => Except.error ("Failed to get spendable VTXOs: " ++ e)
  else
    Except.error "Ark client not available"

/-- `VtxoManager::mark_vtxo_spent` (vtxo_manager.rs lines 171-178): if
the cache holds an entry for the address, set its status to Spent;
otherwise do nothing. The cache is modelled as a partial map. -/
def markVtxoSpent (cache : String → Option VtxoState) (address : String) :
    String → Option VtxoState :=
  match cache address with
  | some vtxo => fun a =>
      if a = address then some { vtxo with status := VtxoStatus.spent } else cache a
  | none => cache

theorem listMinInt_foldl_spec (l : List Int) (m : Int) :
    ∃ m', (l.foldl (fun acc x =>
        match acc with
        | none => some x
        | some m => some (min m x)) (some m)) = some m' ∧
      (m' = m ∨ m' ∈ l) ∧ m' ≤ m ∧ ∀ x ∈ l, m' ≤ x := by
  induction l generalizing m with
  | nil => exact ⟨m, rfl, Or.inl rfl, le_rfl, by simp⟩
  | cons x xs ih =>
    obtain ⟨m', hfold, hmem, hle, hall⟩ := ih (min m x)
    refine ⟨m', by simpa using hfold, ?_, ?_, ?_⟩
    · rcases hmem with h | h
      · rcases min_cases m x with ⟨hmin, _⟩ | ⟨hmin, _⟩
        · exact Or.inl (h.trans hmin)
        · exact Or.inr (by simp [h, hmin])
      · exact Or.inr (by simp [h])
    · exact hle.trans (min_le_left m x)
    · intro y hy
      rcases List.mem_cons.mp hy with h | h
      · exact h ▸ hle.trans (min_le_right m x)
      · exact hall y h

theorem listMinInt_spec (l : List Int) (hl : l ≠ []) :
    ∃ m, listMinInt l = some m ∧ m ∈ l ∧ ∀ x ∈ l, m ≤ x := by
  match l, hl with
  | h :: t, _ =>
    obtain ⟨m', hfold, hmem, hle, hall⟩ := listMinInt_foldl_spec t h
    refine ⟨m', by simpa [listMinInt] using hfold, ?_, ?_⟩
    · rcases hmem with hm | hm
      · simp [hm]
      · simp [hm]
    · intro x hx
      rcases List.mem_cons.mp hx with hx | hx
      · exact hx ▸ hle
      · exact hall x hx

/-- Claim C7: for every group with a non-empty outpoint list and
non-negative expiries, the state derived by `get_spendable_vtxos` has
`total_amount` equal to the sum of outpoint amounts, `earliest_expiry`
equal to the minimum `expire_at` (attained and a lower bound), and a
status that is Expired iff the earliest expiry is at most `now`, else
Pending iff some outpoint is pending, else Confirmed. -/
theorem c7_vtxo_state_derivation (now : Nat) (g : VtxoGroup)
    (hne : g.outpoints ≠ [])
    (hnn : ∀ o ∈ g.outpoints, 0 ≤ o.expire_at) :
    (computeVtxoState now g).total_amount = (g.outpoints.map (fun o => o.amount)).sum ∧
    (∃ o ∈ g.outpoints, (computeVtxoState now g).earliest_expiry = o.expire_at.toNat) ∧
    (∀ o ∈ g.outpoints, (computeVtxoState now g).earliest_expiry ≤ o.expire_at.toNat) ∧
    ((computeVtxoState now g).status = VtxoStatus.expired ↔
      (computeVtxoState now g).earliest_expiry ≤ now) ∧
    ((computeVtxoState now g).status = VtxoStatus.pending ↔
      now < (computeVtxoState now g).earliest_expiry ∧
      g.outpoints.any (fun o => o.is_pending) = true) ∧
    ((computeVtxoState now g).status = VtxoStatus.confirmed ↔
      now < (computeVtxoState now g).earliest_expiry ∧
      g.outpoints.any (fun o => o.is_pending) = false) ∧
    get_spendable_vtxos true (Except.ok [g]) now = Except.ok [computeVtxoState now g] := by
  have hmap : g.outpoints.map (fun o => o.expire_at) ≠ [] := by
    simpa using hne
  obtain ⟨m, hmin, hmem, hlow⟩ := listMinInt_spec _ hmap
  obtain ⟨o₀, ho₀, ho₀eq⟩ := List.mem_map.mp hmem
  have hE : (computeVtxoState now g).earliest_expiry =
      ((listMinInt (g.outpoints.map (fun o => o.expire_at))).getD 0).toNat := rfl
  have hS : (computeVtxoState now g).status =
      (if ((listMinInt (g.outpoints.map (fun o => o.expire_at))).getD 0).toNat ≤ now
        then VtxoStatus.expired
        else if g.outpoints.any (fun o => o.is_pending) then VtxoStatus.pending
        else VtxoStatus.confirmed) := rfl
  have hearly : (computeVtxoState now g).earliest_expiry = m.toNat := by
    rw [hE, hmin]
    rfl
  have hm0 : 0 ≤ m := ho₀eq ▸ hnn o₀ ho₀
  refine ⟨rfl, ?_, ?_, ?_, ?_, ?_, ?_⟩
  · exact ⟨o₀, ho₀, by rw [hearly, ho₀eq]⟩
  · intro o ho
    rw [hearly]
    have := hlow o.expire_at (List.mem_map.mpr ⟨o, ho, rfl⟩)
    omega
  · rw [hS, hE]
    split_ifs with h1 h2 <;> simp_all
  · rw [hS, hE]
    split_ifs with h1 h2 <;> simp_all [Nat.lt_iff_add_one_le] <;> omega
  · rw [hS, hE]
    split_ifs with h1 h2 <;> simp_all [Nat.lt_iff_add_one_le] <;> omega
  · simp [get_spendable_vtxos, hne]

/-- Witness for C7 at a concrete group and time. -/
theorem c7_vtxo_state_derivation_witness :
    (computeVtxoState 10
      { outpoints :=
          [{ outpoint_id := "o1", amount := 700, is_pending := false, expire_at := 50 },
           { outpoint_id := "o2", amount := 300, is_pending := true, expire_at := 40 }],
        address := "addrW" }).status = VtxoStatus.pending := by
  have h := c7_vtxo_state_derivation 10
    { outpoints :=
        [{ outpoint_id := "o1", amount := 700, is_pending := false, expire_at := 50 },
         { outpoint_id := "o2", amount := 300, is_pending := true, expire_at := 40 }],
      address := "addrW" } (by decide) (by decide)
  exact h.2.2.2.2.1.mpr (by decide)

/-- Claim C10: `mark_vtxo_spent` changes at most the status field of the
entry at the given address (to Spent), leaves every other entry intact,
and is a no-op raising no error when the address is absent. -/
theorem c10_mark_vtxo_spent (cache : String → Option VtxoState) (address : String) :
    (∀ v, cache address = some v →
      markVtxoSpent cache address address =
        some { address := v.address, outpoints := v.outpoints,
               total_amount := v.total_amount, status := VtxoStatus.spent,
               earliest_expiry := v.earliest_expiry } ∧
      ∀ a, a ≠ address → markVtxoSpent cache address a = cache a) ∧
    (cache address = none → markVtxoSpent cache address = cache) := by
  constructor
  · intro v hv
    constructor
    · simp [markVtxoSpent, hv]
    · intro a ha
      simp [markVtxoSpent, hv, ha]
  · intro hv
    simp [markVtxoSpent, hv]

/-- Concrete cache entry for the C10 witness. -/
def c10Vtxo : VtxoState :=
  { address := "addrX", outpoints := [], total_amount := 900,
    status := VtxoStatus.confirmed, earliest_expiry := 77 }

/-- Concrete one-entry cache for the C10 witness. -/
def c10Cache : String → Option VtxoState :=
  fun a => if a = "addrX" then some c10Vtxo else none

/-- Witness for C10 at a concrete cache. -/
theorem c10_mark_vtxo_spent_witness :
    markVtxoSpent c10Cache "addrX" "addrX" =
      some { address := c10Vtxo.address, outpoints := c10Vtxo.outpoints,
             total_amount := c10Vtxo.total_amount, status := VtxoStatus.spent,
             earliest_expiry := c10Vtxo.earliest_expiry } :=
  ((c10_mark_vtxo_spent c10Cache "addrX").1 c10Vtxo rfl).1

/-- The VTXO-identification predicate of
`ExitManager::validate_exit_eligibility` (exit_manager.rs lines 78-81):
the id matches a group's address or one of its outpoint ids. -/
def vtxoMatches (vtxo_id : String) (g : VtxoGroup) : Bool :=
  g.address == vtxo_id || g.outpoints.any (fun o => o.outpoint_id == vtxo_id)

/-- `ExitManager::validate_exit_eligibility` (exit_manager.rs lines
68-105): the VTXO must be found among the coordinator's spendable
groups, and some matching group must have all outpoints non-pending. -/
def validate_exit_eligibility (clientAvailable : Bool)
    (vtxosResult : Except String (List VtxoGroup)) (vtxo_id : String) :
    Except String Unit :=
  if clientAvailable then
    match vtxosResult with
    | Except.ok vtxos =>
      let vtxo_found := vtxos.any (vtxoMatches vtxo_id)
      if !vtxo_found then
        Except.error ("VTXO not found or not spendable: " ++ vtxo_id)
      else
        let is_confirmed := vtxos.any (fun g =>
          vtxoMatches vtxo_id g && g.outpoints.all (fun o => !o.is_pending))
        if !is_confirmed then
          Except.error ("Cannot exit pending VTXO unilaterally: " ++ vtxo_id)
        else
          Except.ok ()
    | Except.error e => Except.error ("Failed to validate VTXO eligibility: " ++ e)
  else
    Except.error "Ark client not available"

/-- `ExitManager::exit_vtxo` (exit_manager.rs lines 16-39): validate
eligibility, then invoke the RPC transport's unilateral-exit primitive;
the second component records whether that primitive was invoked. -/
def exit_vtxo (clientAvailable : Bool) (vtxosResult : Except String (List VtxoGroup))
    (vtxo_id : String) (rpcResult : Except String String) :
    Except String String × Bool :=
  match validate_exit_eligibility clientAvailable vtxosResult vtxo_id with
  | Except.error e => (Except.error e, false)
  | Except.ok _ =>
    match rpcResult with
    | Except.ok txid => (Except.ok txid, true)
    | Except.error e => (Except.error ("Failed to perform unilateral exit: " ++ e), true)

/-- Claim C5: `exit_vtxo` errors when the id matches no spendable group
(not-found error) or when every matching group has a pending outpoint
(cannot-exit-pending error), and in both cases the unilateral-exit
primitive is not invoked; when some matching group has all outpoints
non-pending the eligibility validation succeeds and the primitive is
invoked. -/
theorem c5_exit_eligibility (vtxos : List VtxoGroup) (vtxo_id : String)
    (rpcResult : Except String String) :
    (vtxos.any (vtxoMatches vtxo_id) = false →
      exit_vtxo true (Except.ok vtxos) vtxo_id rpcResult =
        (Except.error ("VTXO not found or not spendable: " ++ vtxo_id), false)) ∧
    (vtxos.any (vtxoMatches vtxo_id) = true →
      (∀ g ∈ vtxos, vtxoMatches vtxo_id g = true → ∃ o ∈ g.outpoints, o.is_pending = true) →
      exit_vtxo true (Except.ok vtxos) vtxo_id rpcResult =
        (Except.error ("Cannot exit pending VTXO unilaterally: " ++ vtxo_id), false)) ∧
    ((∃ g ∈ vtxos, vtxoMatches vtxo_id g = true ∧ ∀ o ∈ g.outpoints, o.is_pending = false) →
      validate_exit_eligibility true (Except.ok vtxos) vtxo_id = Except.ok () ∧
      (exit_vtxo true (Except.ok vtxos) vtxo_id rpcResult).2 = true) := by
  refine ⟨?_, ?_, ?_⟩
  · intro hfound
    simp [exit_vtxo, validate_exit_eligibility, hfound]
  · intro hfound hpend
    have hconf : (vtxos.any (fun g =>
        vtxoMatches vtxo_id g && g.outpoints.all (fun o => !o.is_pending))) = false := by
      rw [List.any_eq_false]
      intro g hg
      simp only [Bool.and_eq_true, List.all_eq_true, not_and]
      intro hmatch hall
      obtain ⟨o, ho, hop⟩ := hpend g hg hmatch
      have := hall o ho
      simp [hop] at this
    simp [exit_vtxo, validate_exit_eligibility, hfound, hconf]
  · rintro ⟨g, hg, hmatch, hall⟩
    have hconf : (vtxos.any (fun g =>
        vtxoMatches vtxo_id g && g.outpoints.all (fun o => !o.is_pending))) = true := by
      rw [List.any_eq_true]
      refine ⟨g, hg, ?_⟩
      simp only [Bool.and_eq_true, List.all_eq_true]
      exact ⟨hmatch, fun o ho => by simp [hall o ho]⟩
    have hfound : vtxos.any (vtxoMatches vtxo_id) = true := by
      rw [List.any_eq_true]
      exact ⟨g, hg, hmatch⟩
    have hval : validate_exit_eligibility true (Except.ok vtxos) vtxo_id = Except.ok () := by
      simp [validate_exit_eligibility, hfound, hconf]
    refine ⟨hval, ?_⟩
    cases rpcResult with
    | ok txid => simp [exit_vtxo, hval]
    | error e => simp [exit_vtxo, hval]

/-- Fully-confirmed group for the C5 witness. -/
def c5Group : VtxoGroup :=
  { outpoints :=
      [{ outpoint_id := "op5", amount := 4000, is_pending := false, expire_at := 99999 }],
    address := "addr5" }

/-- Witness for C5 at a concrete spendable set. -/
theorem c5_exit_eligibility_witness :
    validate_exit_eligibility true (Except.ok [c5Group]) "addr5" = Except.ok () ∧
    (exit_vtxo true (Except.ok [c5Group]) "addr5" (Except.ok "txid5")).2 = true :=
  (c5_exit_eligibility [c5Group] "addr5" (Except.ok "txid5")).2.2
    ⟨c5Group, by decide, by decide, by decide⟩

/-- `ArkTransactionBuilder::validate_transaction_params`
(transaction_builder.rs lines 74-96): reject an empty address, a zero
amount, and amounts below the 546-satoshi dust minimum. -/
def validate_transaction_params (address : String) (amount : Nat) : Except String Unit :=
  if address = "" then
    Except.error "Invalid Ark address"
  else if amount = 0 then
    Except.error "Amount must be greater than zero"
  else
    let min_amount := 546
    if amount < min_amount then
      Except.error ("Amount " ++ toString amount ++ " is below minimum " ++
        toString min_amount)
    else
      Except.ok ()

/-- Claim C9: `validate_transaction_params` errors whenever the amount
is zero or below 546 satoshis, errors on an empty address, and returns
Ok exactly for a non-empty address with an amount of at least 546. -/
theorem c9_validate_transaction_params (address : String) (amount : Nat) :
    ((amount = 0 ∨ amount < 546) →
      ∃ e, validate_transaction_params address amount = Except.error e) ∧
    (address = "" →
      ∃ e, validate_transaction_params address amount = Except.error e) ∧
    (address ≠ "" → 546 ≤ amount →
      validate_transaction_params address amount = Except.ok ()) := by
  refine ⟨?_, ?_, ?_⟩
  · intro hamt
    simp only [validate_transaction_params]
    split_ifs with h1 h2 h3
    · exact ⟨_, rfl⟩
    · exact ⟨_, rfl⟩
    · exact ⟨_, rfl⟩
    · omega
  · intro haddr
    simp [validate_transaction_params, haddr]
  · intro haddr hamt
    have h2 : ¬ amount = 0 := by omega
    have h3 : ¬ amount < 546 := by omega
    simp [validate_transaction_params, haddr, h2, h3]

/-- Witness for C9 at a concrete address and amount. -/
theorem c9_validate_transaction_params_witness :
    validate_transaction_params "ark1qtest" 1000 = Except.ok () :=
  (c9_validate_transaction_params "ark1qtest" 1000).2.2 (by decide) (by decide)

/-- Elements of a Bitcoin tapscript as assembled by the Script Builder:
key pushes, integer pushes, and the opcodes it uses. -/
inductive ScriptOp where
  | pushXOnlyKey (k : Nat)
  | pushNum (n : Int)
  | opCheckSig
  | opCheckSigVerify
  | opCheckSigAdd
  | opNumEqual
  | opCsv
  | opDrop
  deriving Repr, DecidableEq

/-- `ScriptManager::create_exit_script` (script_manager.rs lines 84-98):
push the user key, OP_CHECKSIGVERIFY, push the delay, OP_CSV — and
nothing after the OP_CSV. Always returns Ok. -/
def create_exit_script (user_pk : Nat) (delay : Nat) : Except String (List ScriptOp) :=
  Except.ok
    [ScriptOp.pushXOnlyKey user_pk, ScriptOp.opCheckSigVerify,
     ScriptOp.pushNum delay, ScriptOp.opCsv]

/-- Modelled from the spec's words, for comparison only (claim C6): the
claimed opcode sequence push owner key, OP_CHECKSIGVERIFY, push delay,
OP_CHECKSEQUENCEVERIFY, OP_DROP. -/
def specClaimedExitScript (owner_key : Nat) (delay : Nat) : List ScriptOp :=
  [ScriptOp.pushXOnlyKey owner_key, ScriptOp.opCheckSigVerify,
   ScriptOp.pushNum delay, ScriptOp.opCsv, ScriptOp.opDrop]

/-- The keys pushed by a script, in order. -/
def scriptKeys : List ScriptOp → List Nat
  | [] => []
  | ScriptOp.pushXOnlyKey k :: rest => k :: scriptKeys rest
  | _ :: rest => scriptKeys rest

/-- Claim C6 (counterexample): at owner key 1 and delay 3600 the script
built by `create_exit_script` is not the claimed five-element sequence —
the code emits no trailing OP_DROP after OP_CSV. -/
theorem c6_exit_script_counterexample :
    ¬ create_exit_script 1 3600 = Except.ok (specClaimedExitScript 1 3600) := by
  simp [create_exit_script, specClaimedExitScript]

/-- Claim C6 (amended): for every owner key and delay the unilateral
exit script is exactly push owner key, OP_CHECKSIGVERIFY, push delay,
OP_CHECKSEQUENCEVERIFY — with no trailing OP_DROP — and the owner key is
the only key pushed (no coordinator key appears). -/
theorem c6_exit_script (owner_key delay : Nat) :
    create_exit_script owner_key delay =
      Except.ok
        [ScriptOp.pushXOnlyKey owner_key, ScriptOp.opCheckSigVerify,
         ScriptOp.pushNum delay, ScriptOp.opCsv] ∧
    scriptKeys
        [ScriptOp.pushXOnlyKey owner_key, ScriptOp.opCheckSigVerify,
         ScriptOp.pushNum delay, ScriptOp.opCsv] = [owner_key] := by
  exact ⟨rfl, rfl⟩

/-- Sum of `total_amount` over Confirmed-status VTXOs, as in
`ArkOffChainService::send_vtxo` (offchain/mod.rs lines 70-74). -/
def confirmedTotal (vtxos : List VtxoState) : Nat :=
  ((vtxos.filter (fun v => v.status == VtxoStatus.confirmed)).map
    (fun v => v.total_amount)).sum

/-- `ArkTransactionBuilder::build_vtxo_transfer` (transaction_builder.rs
lines 16-44): re-check address and amount, then delegate to the gRPC
send primitive (which may append ledger entries); the last component
records whether that primitive was invoked. -/
def build_vtxo_transfer (to_address : String) (amount : Nat)
    (grpcSend : List TransactionResponse → Except String String × List TransactionResponse)
    (ledger : List TransactionResponse) :
    Except String String × List TransactionResponse × Bool :=
  if to_address = "" then
    (Except.error "Invalid Ark address", ledger, false)
  else if amount = 0 then
    (Except.error "Amount must be greater than zero", ledger, false)
  else
    match grpcSend ledger with
    | (Except.ok txid, ledger2) => (Except.ok txid, ledger2, true)
    | (Except.error e, ledger2) =>
      (Except.error ("Failed to build VTXO transfer: " ++ e), ledger2, true)

/-- `ArkOffChainService::send_vtxo` (offchain/mod.rs lines 63-89):
validate parameters, refresh the spendable VTXOs, sum the Confirmed
totals, reject when short of the requested amount, and otherwise build
and send via the transaction builder. -/
def send_vtxo (address : String) (amount : Nat)
    (refresh : Except String (List VtxoState))
    (grpcSend : List TransactionResponse → Except String String × List TransactionResponse)
    (ledger : List TransactionResponse) :
    Except String String × List TransactionResponse × Bool :=
  match validate_transaction_params address amount with
  | Except.error e => (Except.error e, ledger, false)
  | Except.ok _ =>
    match refresh with
    | Except.error e => (Except.error e, ledger, false)
    | Except.ok vtxos =>
      let total_balance := confirmedTotal vtxos
      if total_balance < amount then
        (Except.error ("Insufficient confirmed balance: have " ++ toString total_balance ++
          " sats, need " ++ toString amount ++ " sats"), ledger, false)
      else
        build_vtxo_transfer address amount grpcSend ledger

/-- Claim C8: with valid parameters and a successful refresh, when the
sum of Confirmed VTXO totals is less than the requested amount,
`send_vtxo` returns the insufficient-balance error, the RPC send
primitive is not invoked, and the ledger is unchanged. -/
theorem c8_send_vtxo_insufficient (address : String) (amount : Nat)
    (vtxos : List VtxoState)
    (grpcSend : List TransactionResponse → Except String String × List TransactionResponse)
    (ledger : List TransactionResponse)
    (haddr : address ≠ "") (hamt : 546 ≤ amount)
    (hshort : confirmedTotal vtxos < amount) :
    send_vtxo address amount (Except.ok vtxos) grpcSend ledger =
      (Except.error ("Insufficient confirmed balance: have " ++
        toString (confirmedTotal vtxos) ++ " sats, need " ++ toString amount ++ " sats"),
       ledger, false) := by
  have h2 : ¬ amount = 0 := by omega
  have h3 : ¬ amount < 546 := by omega
  have hval : validate_transaction_params address amount = Except.ok () := by
    simp [validate_transaction_params, haddr, h2, h3]
  simp [send_vtxo, hval, hshort]

/-- One Confirmed VTXO of 1000 sats, for the C8 witness (the spec's
insufficient-balance scenario). -/
def c8Vtxo : VtxoState :=
  { address := "addr8", outpoints := [], total_amount := 1000,
    status := VtxoStatus.confirmed, earliest_expiry := 99999 }

/-- Witness for C8: requesting 5000 sats against a single Confirmed
1000-sat VTXO yields the insufficient-balance error with no send and no
ledger change. -/
theorem c8_send_vtxo_insufficient_witness :
    send_vtxo "ark1qdest" 5000 (Except.ok [c8Vtxo])
        (fun l => (Except.ok "txid8", l)) [] =
      (Except.error ("Insufficient confirmed balance: have " ++
        toString (confirmedTotal [c8Vtxo]) ++ " sats, need " ++ toString 5000 ++ " sats"),
       [], false) :=
  c8_send_vtxo_insufficient "ark1qdest" 5000 [c8Vtxo]
    (fun l => (Except.ok "txid8", l)) [] (by decide) (by decide) (by decide)

end ArkWebApp
